import Mathlib

/-!
Shallow embedding of `instrumentedsql`'s connection decorator (`WrappedConn`,
files `conn.go` and `conn_go19.go`) and proofs about its capability-adapting
delegation, conditional span lifecycle, cancellation fallback and error
propagation.

Modelling choices, stated once:
* A driver connection is a record of the base `driver.Conn` methods plus one
  `Option`-valued field per optional capability interface (`driver.ConnBeginTx`,
  `driver.ConnPrepareContext`, `driver.Execer`, `driver.ExecerContext`,
  `driver.Pinger`, `driver.Queryer`, `driver.QueryerContext`,
  `driver.NamedValueChecker`); `none` means the Go type assertion
  `c.Parent.(driver.X)` fails, `some f` means it succeeds and the call
  delegates to `f`. The connection is stateless across calls (spec section 4.4),
  so each method is modelled as a pure function of its arguments.
* Statements, transactions, results and rows produced by the driver are opaque
  handles (`Nat`); the decorator only wraps them.
* Errors are an inductive type: `skip` is `driver.ErrSkip`, `canceled` and
  `deadlineExceeded` are the two context errors, `driverErr n` is an arbitrary
  error of the underlying driver, `convErr` an argument-conversion error.
  A Go `error` result is `Option Err` (`none` = nil); a `(value, error)` pair
  where exactly one side is meaningful is `Except Err value`.
* A Go context is its observable part at the single point the code consults
  it: whether `ctx.Done()` is already closed, and the value of `ctx.Err()`.
* Side effects on the external tracer and logger collaborators are made
  explicit: every decorator operation returns its Go result paired with the
  list of span/log events it performs, in order. `time.Since(start)` is the
  abstract duration `Dur.elapsed`; the literal `time.Duration(0)` of the dummy
  ping is `Dur.zero`. A Go `defer` that sets the span error, finishes the span
  and logs is compiled to the corresponding events placed after the body's
  events, computed from the body's final error, exactly as the deferred
  closure reads the named return value `err`.
-/

/-- Error values. `skip` is the sentinel `driver.ErrSkip`; `canceled` and
`deadlineExceeded` are the possible results of `ctx.Err()`; `driverErr n`
stands for an arbitrary distinct error produced by the underlying driver;
`convErr` is an error of the named-to-positional argument conversion. -/
inductive Err where
  | skip
  | canceled
  | deadlineExceeded
  | driverErr (n : Nat)
  | convErr (msg : String)
  deriving DecidableEq

/-- The observable part of a `context.Context` at the decorator's single
cancellation check: whether the context is already done, and what `ctx.Err()`
returns when it is. -/
structure Ctx where
  done : Bool
  ctxErr : Err
  deriving DecidableEq

/-- `driver.Value`: an opaque positional argument value. -/
abbrev Value := Nat

/-- `driver.NamedValue`: name (empty when purely positional), ordinal, value. -/
structure NamedValue where
  name : String
  ordinal : Nat
  value : Value
  deriving DecidableEq

/-- `driver.TxOptions`: isolation level and read-only flag. -/
structure TxOptions where
  isolation : Nat
  readOnly : Bool
  deriving DecidableEq

/-- Opaque handle for a `driver.Stmt` returned by the underlying driver. -/
abbrev Stmt := Nat

/-- Opaque handle for a `driver.Tx` returned by the underlying driver. -/
abbrev Tx := Nat

/-- Opaque handle for a `driver.Result` returned by the underlying driver. -/
abbrev Res := Nat

/-- Opaque handle for `driver.Rows` returned by the underlying driver. -/
abbrev Rows := Nat

/-- The operation kinds used by the connection decorator for span labelling
and exclusion lookup (`OpSQLTxBegin`, `OpSQLPrepare`, `OpSQLConnExec`,
`OpSQLConnQuery`, `OpSQLPing`, `OpSQLDummyPing`). -/
inductive Op where
  | OpSQLTxBegin
  | OpSQLPrepare
  | OpSQLConnExec
  | OpSQLConnQuery
  | OpSQLPing
  | OpSQLDummyPing
  deriving DecidableEq, BEq

/-- Durations appearing in log records: `zero` is the literal
`time.Duration(0)` of the dummy ping, `elapsed` is `time.Since(start)`. -/
inductive Dur where
  | zero
  | elapsed
  deriving DecidableEq

/-- One side effect on the external tracer or logger collaborators.
`spanStart op` is `c.GetSpan(ctx).NewChild(op)`; `spanLabel` is
`span.SetLabel(key, value)`; `spanLabelArgs args` is
`span.SetLabel("args", formatArgs(args))`, carrying the argument list itself
since `formatArgs` is a pure external formatter; `spanSetError`/`spanFinish`
are the deferred `span.SetError(err)`/`span.Finish()`; `logOp op e d` is
`c.Log(ctx, op, "err", e, "duration", d)`; `logDur op d` is
`c.Log(ctx, op, "duration", d)` (the dummy-ping record, which has no error
field); `logQueryRecord op query e args d` is
`logQuery(ctx, c.opts, op, query, e, args, start)` with `args = none` for the
Go literal `nil`. -/
inductive Event where
  | spanStart (op : Op)
  | spanLabel (key : String) (value : String)
  | spanLabelArgs (args : List NamedValue)
  | spanSetError (e : Option Err)
  | spanFinish
  | logOp (op : Op) (e : Option Err) (d : Dur)
  | logDur (op : Op) (d : Dur)
  | logQueryRecord (op : Op) (query : String) (e : Option Err) (args : Option (List NamedValue)) (d : Dur)
  deriving DecidableEq

/-- Modelled from the spec: the `opts` value object (its definition lives in
`sql.go`, which is not under `src/`) — "immutable configuration held by every
wrapper instance — tracer handle, logger handle, set of excluded operation
kinds, flag to omit argument logging". The tracer and logger handles are
externalised into the `Event` list, leaving the `OmitArgs` flag and the set
of excluded operation kinds. -/
structure Opts where
  OmitArgs : Bool
  opsExcluded : List Op
  deriving DecidableEq

/-- Modelled from the spec: `hasOpExcluded` (defined in `sql.go`, not under
`src/`) tests membership of an operation kind in the configured exclusion
set. -/
def Opts.hasOpExcluded (o : Opts) (op : Op) : Bool :=
  o.opsExcluded.contains op

/-- The underlying `driver.Conn` being decorated: the base contract
(`Prepare`, `Close`, `Begin`) plus one optional field per capability
interface; `none` models a failing Go type assertion. -/
structure DriverConn where
  Prepare : String → Except Err Stmt
  Close : Option Err
  Begin : Except Err Tx
  ConnBeginTx : Option (Ctx → TxOptions → Except Err Tx)
  ConnPrepareContext : Option (Ctx → String → Except Err Stmt)
  Execer : Option (String → List Value → Except Err Res)
  ExecerContext : Option (Ctx → String → List NamedValue → Except Err Res)
  Pinger : Option (Ctx → Option Err)
  Queryer : Option (String → List Value → Except Err Rows)
  QueryerContext : Option (Ctx → String → List NamedValue → Except Err Rows)
  NamedValueChecker : Option (NamedValue → Option Err)

/-- `wrappedStmt{opts, ctx, query, parent}`; `ctx = none` models the Go zero
value (no context recorded, as in legacy `Prepare`). -/
structure wrappedStmt where
  opts : Opts
  ctx : Option Ctx
  query : String
  parent : Stmt
  deriving DecidableEq

/-- `wrappedTx{opts, ctx, parent}`. -/
structure wrappedTx where
  opts : Opts
  ctx : Option Ctx
  parent : Tx
  deriving DecidableEq

/-- `wrappedResult{opts, ctx, parent}`. -/
structure wrappedResult where
  opts : Opts
  ctx : Option Ctx
  parent : Res
  deriving DecidableEq

/-- `wrappedRows{opts, ctx, parent}`. -/
structure wrappedRows where
  opts : Opts
  ctx : Option Ctx
  parent : Rows
  deriving DecidableEq

/-- The connection decorator: embedded `opts` plus the `Parent` connection. -/
structure WrappedConn where
  opts : Opts
  Parent : DriverConn

/-- Modelled from the spec: `namedValueToValue(namedArgs) -> positional
values, or error` — a pure conversion helper of this repository defined in
`sql.go`, which is not under `src/`; per the spec it "fails if a named
argument cannot be represented positionally (e.g., unsupported ordinal or
name collision) — this failure must short-circuit the fallback call". It is
modelled as succeeding exactly when every argument is purely positional
(empty name), yielding the values in order. -/
def namedValueToValue (named : List NamedValue) : Except Err (List Value) :=
  if named.all (fun nv => nv.name = "") then
    .ok (named.map (fun nv => nv.value))
  else
    .error (.convErr "driver does not support the use of Named Parameters")

/-- The error component of a Go `(value, err)` return: the final value of the
named return variable `err` that a deferred closure observes. -/
def errOf {α : Type} : Except Err α → Option Err
  | .error e => some e
  | .ok _ => none

/-- `WrappedConn.Prepare` (conn.go:26-33): delegate to the parent, wrap the
statement; no span, no log. -/
def WrappedConn.Prepare (c : WrappedConn) (query : String) :
    Except Err wrappedStmt × List Event :=
  (match c.Parent.Prepare query with
   | .error e => .error e
   | .ok parent => .ok { opts := c.opts, ctx := none, query := query, parent := parent },
   [])

/-- `WrappedConn.Close` (conn.go:35-37): forward to the parent's close. -/
def WrappedConn.Close (c : WrappedConn) : Option Err × List Event :=
  (c.Parent.Close, [])

/-- `WrappedConn.Begin` (conn.go:39-46): delegate to the parent, wrap the
transaction; no span, no log. -/
def WrappedConn.Begin (c : WrappedConn) : Except Err wrappedTx × List Event :=
  (match c.Parent.Begin with
   | .error e => .error e
   | .ok tx => .ok { opts := c.opts, ctx := none, parent := tx },
   [])

/-- The body of `WrappedConn.BeginTx` (conn.go:60-75): the modern
`driver.ConnBeginTx` path when the capability is present, otherwise the
legacy `c.Parent.Begin()` fallback (note: no cancellation check and the
`driver.TxOptions` are dropped on the fallback). -/
def beginTxBody (c : WrappedConn) (ctx : Ctx) (topts : TxOptions) :
    Except Err wrappedTx :=
  match c.Parent.ConnBeginTx with
  | some connBeginTx =>
    match connBeginTx ctx topts with
    | .error e => .error e
    | .ok tx => .ok { opts := c.opts, ctx := some ctx, parent := tx }
  | none =>
    match c.Parent.Begin with
    | .error e => .error e
    | .ok tx => .ok { opts := c.opts, ctx := some ctx, parent := tx }

/-- `WrappedConn.BeginTx` (conn.go:48-75): when `OpSQLTxBegin` is not
excluded, a span is created, labelled, and a deferred closure records the
final error, finishes the span and logs; the body is `beginTxBody`. -/
def WrappedConn.BeginTx (c : WrappedConn) (ctx : Ctx) (topts : TxOptions) :
    Except Err wrappedTx × List Event :=
  let r := beginTxBody c ctx topts
  if c.opts.hasOpExcluded .OpSQLTxBegin then
    (r, [])
  else
    (r, [.spanStart .OpSQLTxBegin, .spanLabel "component" "database/sql",
         .spanSetError (errOf r), .spanFinish,
         .logOp .OpSQLTxBegin (errOf r) .elapsed])

/-- The body of `WrappedConn.PrepareContext` (conn.go:89-98): the modern
`driver.ConnPrepareContext` path when present, otherwise the legacy
`c.Prepare(query)` fallback (note: no cancellation check; the fallback
wrapper records no context). -/
def prepareContextBody (c : WrappedConn) (ctx : Ctx) (query : String) :
    Except Err wrappedStmt :=
  match c.Parent.ConnPrepareContext with
  | some connPrepareCtx =>
    match connPrepareCtx ctx query with
    | .error e => .error e
    | .ok stmt => .ok { opts := c.opts, ctx := some ctx, query := query, parent := stmt }
  | none => (c.Prepare query).1

/-- `WrappedConn.PrepareContext` (conn.go:77-99): conditional span plus
deferred `logQuery` (with `nil` args), around `prepareContextBody`. -/
def WrappedConn.PrepareContext (c : WrappedConn) (ctx : Ctx) (query : String) :
    Except Err wrappedStmt × List Event :=
  let r := prepareContextBody c ctx query
  if c.opts.hasOpExcluded .OpSQLPrepare then
    (r, [])
  else
    (r, [.spanStart .OpSQLPrepare, .spanLabel "component" "database/sql",
         .spanSetError (errOf r), .spanFinish,
         .logQueryRecord .OpSQLPrepare query (errOf r) none .elapsed])

/-- `WrappedConn.Exec` (conn.go:101-112): delegate to `driver.Execer` when
present, else return `driver.ErrSkip`; no span, no log. -/
def WrappedConn.Exec (c : WrappedConn) (query : String) (args : List Value) :
    Except Err wrappedResult × List Event :=
  (match c.Parent.Execer with
   | some execer =>
     match execer query args with
     | .error e => .error e
     | .ok res => .ok { opts := c.opts, ctx := none, parent := res }
   | none => .error .skip,
   [])

/-- The body of `WrappedConn.ExecContext` (conn.go:131-151): the modern
`driver.ExecerContext` path when present; otherwise the fallback converts
the named arguments, then checks `ctx.Done()` (returning `ctx.Err()` if the
context is already done), then calls `c.Exec`. -/
def execContextBody (c : WrappedConn) (ctx : Ctx) (query : String)
    (args : List NamedValue) : Except Err wrappedResult :=
  match c.Parent.ExecerContext with
  | some execContext =>
    match execContext ctx query args with
    | .error e => .error e
    | .ok res => .ok { opts := c.opts, ctx := some ctx, parent := res }
  | none =>
    match namedValueToValue args with
    | .error e => .error e
    | .ok dargs =>
      if ctx.done then .error ctx.ctxErr
      else (c.Exec query dargs).1

/-- `WrappedConn.ExecContext` (conn.go:114-152): when `OpSQLConnExec` is not
excluded, a span is created and labelled (args label omitted when `OmitArgs`)
before any capability check, and a deferred closure records the final error,
finishes the span and calls `logQuery`; the body is `execContextBody`. -/
def WrappedConn.ExecContext (c : WrappedConn) (ctx : Ctx) (query : String)
    (args : List NamedValue) : Except Err wrappedResult × List Event :=
  let r := execContextBody c ctx query args
  if c.opts.hasOpExcluded .OpSQLConnExec then
    (r, [])
  else
    (r, [Event.spanStart .OpSQLConnExec, .spanLabel "component" "database/sql",
         .spanLabel "query" query]
        ++ (if c.opts.OmitArgs then [] else [Event.spanLabelArgs args])
        ++ [Event.spanSetError (errOf r), .spanFinish,
            .logQueryRecord .OpSQLConnExec query (errOf r) (some args) .elapsed])

/-- `WrappedConn.Ping` (conn.go:154-173): when the parent implements
`driver.Pinger`, delegate (with conditional span and log); otherwise log a
dummy-ping record with duration `time.Duration(0)` and return nil. The
capability probe happens before the exclusion set is consulted. -/
def WrappedConn.Ping (c : WrappedConn) (ctx : Ctx) : Option Err × List Event :=
  match c.Parent.Pinger with
  | some pinger =>
    let e := pinger ctx
    if c.opts.hasOpExcluded .OpSQLPing then
      (e, [])
    else
      (e, [.spanStart .OpSQLPing, .spanLabel "component" "database/sql",
           .spanSetError e, .spanFinish, .logOp .OpSQLPing e .elapsed])
  | none => (none, [Event.logDur .OpSQLDummyPing .zero])

/-- `WrappedConn.Query` (conn.go:175-186): delegate to `driver.Queryer` when
present, else return `driver.ErrSkip`; no span, no log. -/
def WrappedConn.Query (c : WrappedConn) (query : String) (args : List Value) :
    Except Err wrappedRows × List Event :=
  (match c.Parent.Queryer with
   | some queryer =>
     match queryer query args with
     | .error e => .error e
     | .ok rows => .ok { opts := c.opts, ctx := none, parent := rows }
   | none => .error .skip,
   [])

/-- The body of `WrappedConn.QueryContext` after the quick-skip path
(conn.go:211-231): the modern `driver.QueryerContext` path when present;
otherwise convert the named arguments, check `ctx.Done()`, then call
`c.Query`. -/
def queryContextBody (c : WrappedConn) (ctx : Ctx) (query : String)
    (args : List NamedValue) : Except Err wrappedRows :=
  match c.Parent.QueryerContext with
  | some queryerContext =>
    match queryerContext ctx query args with
    | .error e => .error e
    | .ok rows => .ok { opts := c.opts, ctx := some ctx, parent := rows }
  | none =>
    match namedValueToValue args with
    | .error e => .error e
    | .ok dargs =>
      if ctx.done then .error ctx.ctxErr
      else (c.Query query dargs).1

/-- `WrappedConn.QueryContext` (conn.go:188-231): first the quick-skip path —
if the parent implements neither `driver.QueryerContext` nor `driver.Queryer`
return `driver.ErrSkip` with no span at all; otherwise conditional span and
deferred `logQuery` around `queryContextBody`. -/
def WrappedConn.QueryContext (c : WrappedConn) (ctx : Ctx) (query : String)
    (args : List NamedValue) : Except Err wrappedRows × List Event :=
  if c.Parent.QueryerContext.isNone && c.Parent.Queryer.isNone then
    (.error .skip, [])
  else
    let r := queryContextBody c ctx query args
    if c.opts.hasOpExcluded .OpSQLConnQuery then
      (r, [])
    else
      (r, [Event.spanStart .OpSQLConnQuery, .spanLabel "component" "database/sql",
           .spanLabel "query" query]
          ++ (if c.opts.OmitArgs then [] else [Event.spanLabelArgs args])
          ++ [Event.spanSetError (errOf r), .spanFinish,
              .logQueryRecord .OpSQLConnQuery query (errOf r) (some args) .elapsed])

/-- `WrappedConn.CheckNamedValue` (conn_go19.go:11-17): delegate to
`driver.NamedValueChecker` when present, else return `driver.ErrSkip`; no
span, no log. -/
def WrappedConn.CheckNamedValue (c : WrappedConn) (v : NamedValue) :
    Option Err × List Event :=
  (match c.Parent.NamedValueChecker with
   | some checker => checker v
   | none => some .skip,
   [])

/-! ## Undecorated call summaries

For the refinement statements we describe, per operation, the bare driver
call the decorator performs, applied to the decorator's own inputs: these
functions take only the `DriverConn` and contain no wrapping, spans or logs. -/

/-- The bare begin-transaction call: modern `ConnBeginTx` when present,
otherwise legacy `Begin` (options dropped). -/
def beginTxCall (p : DriverConn) (ctx : Ctx) (topts : TxOptions) : Except Err Tx :=
  match p.ConnBeginTx with
  | some f => f ctx topts
  | none => p.Begin

/-- The bare prepare call: modern `ConnPrepareContext` when present,
otherwise legacy `Prepare`. -/
def prepareContextCall (p : DriverConn) (ctx : Ctx) (query : String) : Except Err Stmt :=
  match p.ConnPrepareContext with
  | some f => f ctx query
  | none => p.Prepare query

/-- The bare legacy exec call: `Execer` when present, else `driver.ErrSkip`. -/
def execCall (p : DriverConn) (query : String) (args : List Value) : Except Err Res :=
  match p.Execer with
  | some execer => execer query args
  | none => .error .skip

/-- The bare legacy query call: `Queryer` when present, else `driver.ErrSkip`. -/
def queryCall (p : DriverConn) (query : String) (args : List Value) : Except Err Rows :=
  match p.Queryer with
  | some queryer => queryer query args
  | none => .error .skip

/-- The bare context exec call: `ExecerContext` when present; otherwise
convert arguments, check cancellation, then the legacy exec call. -/
def execContextCall (p : DriverConn) (ctx : Ctx) (query : String)
    (args : List NamedValue) : Except Err Res :=
  match p.ExecerContext with
  | some f => f ctx query args
  | none =>
    match namedValueToValue args with
    | .error e => .error e
    | .ok dargs =>
      if ctx.done then .error ctx.ctxErr else execCall p query dargs

/-- The bare context query call, including the quick-skip when neither query
capability is present; otherwise `QueryerContext` when present, else convert
arguments, check cancellation, then the legacy query call. -/
def queryContextCall (p : DriverConn) (ctx : Ctx) (query : String)
    (args : List NamedValue) : Except Err Rows :=
  if p.QueryerContext.isNone && p.Queryer.isNone then .error .skip
  else
    match p.QueryerContext with
    | some f => f ctx query args
    | none =>
      match namedValueToValue args with
      | .error e => .error e
      | .ok dargs =>
        if ctx.done then .error ctx.ctxErr else queryCall p query dargs

/-- The bare ping call: `Pinger` when present, else a nil error. -/
def pingCall (p : DriverConn) (ctx : Ctx) : Option Err :=
  match p.Pinger with
  | some pinger => pinger ctx
  | none => none

/-! ## Projections

`xParent` strips a wrapper down to the delegated artifact; `xView` strips
only the configuration copy, keeping the recorded context (and query for
statements) and the delegated artifact. Both preserve errors. -/

/-- Delegated statement of a prepare outcome. -/
def stmtParent : Except Err wrappedStmt → Except Err Stmt :=
  Except.map (fun w => w.parent)

/-- Delegated transaction of a begin outcome. -/
def txParent : Except Err wrappedTx → Except Err Tx :=
  Except.map (fun w => w.parent)

/-- Delegated result of an exec outcome. -/
def resParent : Except Err wrappedResult → Except Err Res :=
  Except.map (fun w => w.parent)

/-- Delegated rows of a query outcome. -/
def rowsParent : Except Err wrappedRows → Except Err Rows :=
  Except.map (fun w => w.parent)

/-- Everything the caller gets from a prepare outcome except the
configuration copy: recorded context, query text, delegated statement. -/
def stmtView : Except Err wrappedStmt → Except Err (Option Ctx × String × Stmt) :=
  Except.map (fun w => (w.ctx, w.query, w.parent))

/-- Everything the caller gets from a begin outcome except the configuration
copy: recorded context and delegated transaction. -/
def txView : Except Err wrappedTx → Except Err (Option Ctx × Tx) :=
  Except.map (fun w => (w.ctx, w.parent))

/-- Everything the caller gets from an exec outcome except the configuration
copy: recorded context and delegated result. -/
def resView : Except Err wrappedResult → Except Err (Option Ctx × Res) :=
  Except.map (fun w => (w.ctx, w.parent))

/-- Everything the caller gets from a query outcome except the configuration
copy: recorded context and delegated rows. -/
def rowsView : Except Err wrappedRows → Except Err (Option Ctx × Rows) :=
  Except.map (fun w => (w.ctx, w.parent))

/-! ## Plumbing lemmas -/

lemma errOf_map {α β : Type} (f : α → β) (x : Except Err α) :
    errOf (Except.map f x) = errOf x := by
  cases x <;> rfl

lemma BeginTx_fst (c : WrappedConn) (ctx : Ctx) (topts : TxOptions) :
    (c.BeginTx ctx topts).1 = beginTxBody c ctx topts := by
  simp only [WrappedConn.BeginTx]
  split <;> rfl

lemma PrepareContext_fst (c : WrappedConn) (ctx : Ctx) (query : String) :
    (c.PrepareContext ctx query).1 = prepareContextBody c ctx query := by
  simp only [WrappedConn.PrepareContext]
  split <;> rfl

lemma ExecContext_fst (c : WrappedConn) (ctx : Ctx) (query : String)
    (args : List NamedValue) :
    (c.ExecContext ctx query args).1 = execContextBody c ctx query args := by
  simp only [WrappedConn.ExecContext]
  split <;> rfl

lemma QueryContext_fst_of_queryerContext (c : WrappedConn) (ctx : Ctx)
    (query : String) (args : List NamedValue)
    (f : Ctx → String → List NamedValue → Except Err Rows)
    (h : c.Parent.QueryerContext = some f) :
    (c.QueryContext ctx query args).1 = queryContextBody c ctx query args := by
  simp only [WrappedConn.QueryContext, h, Option.isNone_some, Bool.false_and,
    Bool.false_eq_true, if_false]
  split <;> rfl

lemma QueryContext_fst_of_queryer (c : WrappedConn) (ctx : Ctx)
    (query : String) (args : List NamedValue)
    (qr : String → List Value → Except Err Rows)
    (h : c.Parent.Queryer = some qr) :
    (c.QueryContext ctx query args).1 = queryContextBody c ctx query args := by
  simp only [WrappedConn.QueryContext, h, Option.isNone_some, Bool.and_false,
    Bool.false_eq_true, if_false]
  split <;> rfl

lemma BeginTx_snd_excluded (c : WrappedConn) (ctx : Ctx) (topts : TxOptions)
    (h : c.opts.hasOpExcluded .OpSQLTxBegin = true) :
    (c.BeginTx ctx topts).2 = [] := by
  simp [WrappedConn.BeginTx, h]

lemma PrepareContext_snd_excluded (c : WrappedConn) (ctx : Ctx) (query : String)
    (h : c.opts.hasOpExcluded .OpSQLPrepare = true) :
    (c.PrepareContext ctx query).2 = [] := by
  simp [WrappedConn.PrepareContext, h]

lemma ExecContext_snd_excluded (c : WrappedConn) (ctx : Ctx) (query : String)
    (args : List NamedValue)
    (h : c.opts.hasOpExcluded .OpSQLConnExec = true) :
    (c.ExecContext ctx query args).2 = [] := by
  simp [WrappedConn.ExecContext, h]

lemma QueryContext_snd_excluded (c : WrappedConn) (ctx : Ctx) (query : String)
    (args : List NamedValue)
    (h : c.opts.hasOpExcluded .OpSQLConnQuery = true) :
    (c.QueryContext ctx query args).2 = [] := by
  unfold WrappedConn.QueryContext
  split
  · rfl
  · simp [h]

lemma Ping_snd_excluded (c : WrappedConn) (ctx : Ctx) (pg : Ctx → Option Err)
    (hpg : c.Parent.Pinger = some pg)
    (h : c.opts.hasOpExcluded .OpSQLPing = true) :
    (c.Ping ctx).2 = [] := by
  simp [WrappedConn.Ping, hpg, h]

/-! ## Concrete connections for witnesses and counterexamples -/

/-- A driver connection implementing only the base `driver.Conn` contract:
every optional capability is absent. -/
def baseConn : DriverConn where
  Prepare := fun _ => .ok 11
  Close := none
  Begin := .ok 12
  ConnBeginTx := none
  ConnPrepareContext := none
  Execer := none
  ExecerContext := none
  Pinger := none
  Queryer := none
  QueryerContext := none
  NamedValueChecker := none

/-- A driver connection implementing every modern capability. -/
def modernConn : DriverConn :=
  { baseConn with
    ConnBeginTx := some (fun _ topts => if topts.readOnly then .error (.driverErr 21) else .ok 22)
    ConnPrepareContext := some (fun _ q => if q = "" then .error (.driverErr 23) else .ok 24)
    ExecerContext := some (fun _ _ args => .ok (args.length + 30))
    QueryerContext := some (fun _ _ args => .ok (args.length + 40))
    Pinger := some (fun ctx => if ctx.done then some (.driverErr 25) else none)
    NamedValueChecker := some (fun v => if v.ordinal = 0 then some (.driverErr 26) else none) }

/-- A driver connection implementing only the legacy optional capabilities
(`driver.Execer`, `driver.Queryer`) besides the base contract. -/
def legacyConn : DriverConn :=
  { baseConn with
    Execer := some (fun _ vs => .ok (vs.length + 50))
    Queryer := some (fun _ vs => .ok (vs.length + 60)) }

/-- A context that is already cancelled. -/
def ctxCancelled : Ctx where
  done := true
  ctxErr := .canceled

/-- A context that is not cancelled. -/
def ctxLive : Ctx where
  done := false
  ctxErr := .canceled

/-- Configuration with nothing excluded and argument logging on. -/
def optsNone : Opts where
  OmitArgs := false
  opsExcluded := []

/-- Configuration with every connection-level operation kind excluded. -/
def optsAll : Opts where
  OmitArgs := false
  opsExcluded := [.OpSQLTxBegin, .OpSQLPrepare, .OpSQLConnExec, .OpSQLConnQuery, .OpSQLPing]

/-! ## Claims -/

/-- **C4.** On a wrapped connection whose parent does not implement
`driver.Pinger`, `Ping` returns a nil error, creates no span, and emits
exactly one log record, for the dummy-ping operation kind with duration
`time.Duration(0)` — whatever the context and however the exclusion set is
configured (the capability probe at conn.go:155 happens before the exclusion
set is consulted, so the statement has no hypothesis about `opsExcluded`). -/
theorem C4_theorem (c : WrappedConn) (ctx : Ctx)
    (h : c.Parent.Pinger = none) :
    c.Ping ctx = (none, [Event.logDur .OpSQLDummyPing .zero]) := by
  unfold WrappedConn.Ping
  rw [h]

/-- **C4 witness**: the no-pinger connection, with the ping kind excluded, on
a cancelled context: nil error and exactly the zero-duration dummy-ping log
record. -/
theorem C4_witness :
    WrappedConn.Ping { opts := optsAll, Parent := baseConn } ctxCancelled
      = (none, [Event.logDur .OpSQLDummyPing .zero]) :=
  C4_theorem { opts := optsAll, Parent := baseConn } ctxCancelled rfl

/-- **C9.** The legacy (non-context) public methods `Prepare`, `Begin`,
`Exec` and `Query` never create a span and never emit a log record, for every
input and configuration: their event lists are empty. (`Exec`/`Query` here
are the `driver.Execer`/`driver.Queryer` methods of the decorator,
conn.go:101-112 and conn.go:175-186, which only forward and wrap.) -/
theorem C9_theorem (c : WrappedConn) (query : String) (vargs : List Value) :
    (c.Prepare query).2 = [] ∧ c.Begin.2 = []
      ∧ (c.Exec query vargs).2 = [] ∧ (c.Query query vargs).2 = [] :=
  ⟨rfl, rfl, rfl, rfl⟩

/-- **C10.** `CheckNamedValue` (conn_go19.go:11-17): when the parent
implements `driver.NamedValueChecker` the decorator returns exactly the
checker's result for the given value, otherwise the sentinel
`driver.ErrSkip`; in both cases no span is created and no log record is
emitted (empty event list). -/
theorem C10_theorem (c1 c2 : WrappedConn) (v : NamedValue)
    (f : NamedValue → Option Err)
    (h1 : c1.Parent.NamedValueChecker = some f)
    (h2 : c2.Parent.NamedValueChecker = none) :
    c1.CheckNamedValue v = (f v, []) ∧ c2.CheckNamedValue v = (some .skip, []) := by
  unfold WrappedConn.CheckNamedValue
  rw [h1, h2]
  exact ⟨rfl, rfl⟩

/-- **C10 witness**: a connection with a checker rejecting ordinal 0, and the
bare connection without one, evaluated on the named value `("", 0, 5)`. -/
theorem C10_witness :
    WrappedConn.CheckNamedValue { opts := optsNone, Parent := modernConn }
        { name := "", ordinal := 0, value := 5 } = (some (.driverErr 26), [])
    ∧ WrappedConn.CheckNamedValue { opts := optsNone, Parent := baseConn }
        { name := "", ordinal := 0, value := 5 } = (some .skip, []) := by
  have h := C10_theorem { opts := optsNone, Parent := modernConn }
    { opts := optsNone, Parent := baseConn }
    { name := "", ordinal := 0, value := 5 }
    (fun v => if v.ordinal = 0 then some (.driverErr 26) else none) rfl rfl
  exact ⟨h.1.trans rfl, h.2⟩

/-- **C5.** For every operation whose modern capability the parent
implements (`ConnBeginTx`, `ConnPrepareContext`, `ExecerContext`,
`QueryerContext`): on success the decorator returns a wrapper whose parent is
exactly the artifact the modern call returned, carrying the shared `Opts` and
the call's context, with a nil error; on failure it returns exactly the
modern call's error and no artifact — `Except.map` of the modern call's
outcome states both at once. -/
theorem C5_theorem (c : WrappedConn) (ctx : Ctx) (topts : TxOptions)
    (query : String) (args : List NamedValue)
    (fb : Ctx → TxOptions → Except Err Tx)
    (fp : Ctx → String → Except Err Stmt)
    (fe : Ctx → String → List NamedValue → Except Err Res)
    (fq : Ctx → String → List NamedValue → Except Err Rows)
    (hb : c.Parent.ConnBeginTx = some fb)
    (hp : c.Parent.ConnPrepareContext = some fp)
    (he : c.Parent.ExecerContext = some fe)
    (hq : c.Parent.QueryerContext = some fq) :
    (c.BeginTx ctx topts).1
        = Except.map (fun tx => { opts := c.opts, ctx := some ctx, parent := tx }) (fb ctx topts)
    ∧ (c.PrepareContext ctx query).1
        = Except.map (fun s => { opts := c.opts, ctx := some ctx, query := query, parent := s }) (fp ctx query)
    ∧ (c.ExecContext ctx query args).1
        = Except.map (fun res => { opts := c.opts, ctx := some ctx, parent := res }) (fe ctx query args)
    ∧ (c.QueryContext ctx query args).1
        = Except.map (fun rows => { opts := c.opts, ctx := some ctx, parent := rows }) (fq ctx query args) := by
  refine ⟨?_, ?_, ?_, ?_⟩
  · rw [BeginTx_fst]
    unfold beginTxBody
    rw [hb]
    cases hx : fb ctx topts <;> simp [hx, Except.map]
  · rw [PrepareContext_fst]
    unfold prepareContextBody
    rw [hp]
    cases hx : fp ctx query <;> simp [hx, Except.map]
  · rw [ExecContext_fst]
    unfold execContextBody
    rw [he]
    cases hx : fe ctx query args <;> simp [hx, Except.map]
  · rw [QueryContext_fst_of_queryerContext c ctx query args fq hq]
    unfold queryContextBody
    rw [hq]
    cases hx : fq ctx query args <;> simp [hx, Except.map]

/-- **C5 witness**: the fully modern connection, on a live context, with one
succeeding and one failing call shape per conjunct made concrete by
evaluation. -/
theorem C5_witness :
    (WrappedConn.BeginTx { opts := optsNone, Parent := modernConn } ctxLive
        { isolation := 0, readOnly := false }).1
      = .ok { opts := optsNone, ctx := some ctxLive, parent := 22 }
    ∧ (WrappedConn.PrepareContext { opts := optsNone, Parent := modernConn } ctxLive "sel").1
      = .ok { opts := optsNone, ctx := some ctxLive, query := "sel", parent := 24 }
    ∧ (WrappedConn.ExecContext { opts := optsNone, Parent := modernConn } ctxLive "sel" []).1
      = .ok { opts := optsNone, ctx := some ctxLive, parent := 30 }
    ∧ (WrappedConn.QueryContext { opts := optsNone, Parent := modernConn } ctxLive "sel" []).1
      = .ok { opts := optsNone, ctx := some ctxLive, parent := 40 } := by
  have h := C5_theorem { opts := optsNone, Parent := modernConn } ctxLive
    { isolation := 0, readOnly := false } "sel" []
    (fun _ topts => if topts.readOnly then .error (.driverErr 21) else .ok 22)
    (fun _ q => if q = "" then .error (.driverErr 23) else .ok 24)
    (fun _ _ args => .ok (args.length + 30))
    (fun _ _ args => .ok (args.length + 40))
    rfl rfl rfl rfl
  exact ⟨h.1.trans rfl, h.2.1.trans rfl, h.2.2.1.trans rfl, h.2.2.2.trans rfl⟩

lemma QueryContext_fst (c : WrappedConn) (ctx : Ctx) (query : String)
    (args : List NamedValue) :
    (c.QueryContext ctx query args).1 =
      if c.Parent.QueryerContext.isNone && c.Parent.Queryer.isNone then .error .skip
      else queryContextBody c ctx query args := by
  unfold WrappedConn.QueryContext
  cases hq : (c.Parent.QueryerContext.isNone && c.Parent.Queryer.isNone)
  · simp only [hq, Bool.false_eq_true, if_false]
    split <;> rfl
  · simp [hq]

lemma Ping_fst (c : WrappedConn) (ctx : Ctx) (pg : Ctx → Option Err)
    (hpg : c.Parent.Pinger = some pg) :
    (c.Ping ctx).1 = pg ctx := by
  simp only [WrappedConn.Ping, hpg]
  split <;> rfl

lemma txView_beginTxBody (c1 c2 : WrappedConn) (h : c1.Parent = c2.Parent)
    (ctx : Ctx) (topts : TxOptions) :
    txView (beginTxBody c1 ctx topts) = txView (beginTxBody c2 ctx topts) := by
  unfold beginTxBody
  rw [h]
  cases hx : c2.Parent.ConnBeginTx with
  | some f => cases hy : f ctx topts <;> simp [hx, hy, txView, Except.map]
  | none => cases hy : c2.Parent.Begin <;> simp [hx, hy, txView, Except.map]

lemma stmtView_prepareContextBody (c1 c2 : WrappedConn) (h : c1.Parent = c2.Parent)
    (ctx : Ctx) (query : String) :
    stmtView (prepareContextBody c1 ctx query)
      = stmtView (prepareContextBody c2 ctx query) := by
  unfold prepareContextBody WrappedConn.Prepare
  rw [h]
  cases hx : c2.Parent.ConnPrepareContext with
  | some f => cases hy : f ctx query <;> simp [hx, hy, stmtView, Except.map]
  | none => cases hy : c2.Parent.Prepare query <;> simp [hx, hy, stmtView, Except.map]

lemma resView_execContextBody (c1 c2 : WrappedConn) (h : c1.Parent = c2.Parent)
    (ctx : Ctx) (query : String) (args : List NamedValue) :
    resView (execContextBody c1 ctx query args)
      = resView (execContextBody c2 ctx query args) := by
  unfold execContextBody WrappedConn.Exec
  rw [h]
  cases hx : c2.Parent.ExecerContext with
  | some f => cases hy : f ctx query args <;> simp [hx, hy, resView, Except.map]
  | none =>
    cases hy : namedValueToValue args with
    | error e => simp [hx, hy, resView, Except.map]
    | ok dargs =>
      cases hd : ctx.done
      · cases hz : c2.Parent.Execer with
        | some ex => cases hw : ex query dargs <;> simp [hx, hy, hd, hz, hw, resView, Except.map]
        | none => simp [hx, hy, hd, hz, resView, Except.map]
      · simp [hx, hy, hd, resView, Except.map]

lemma rowsView_queryContextBody (c1 c2 : WrappedConn) (h : c1.Parent = c2.Parent)
    (ctx : Ctx) (query : String) (args : List NamedValue) :
    rowsView (queryContextBody c1 ctx query args)
      = rowsView (queryContextBody c2 ctx query args) := by
  unfold queryContextBody WrappedConn.Query
  rw [h]
  cases hx : c2.Parent.QueryerContext with
  | some f => cases hy : f ctx query args <;> simp [hx, hy, rowsView, Except.map]
  | none =>
    cases hy : namedValueToValue args with
    | error e => simp [hx, hy, rowsView, Except.map]
    | ok dargs =>
      cases hd : ctx.done
      · cases hz : c2.Parent.Queryer with
        | some qr => cases hw : qr query dargs <;> simp [hx, hy, hd, hz, hw, rowsView, Except.map]
        | none => simp [hx, hy, hd, hz, rowsView, Except.map]
      · simp [hx, hy, hd, rowsView, Except.map]

/-- **C3.** For every instrumented operation — `BeginTx`, `PrepareContext`,
`ExecContext`, `QueryContext`, and `Ping` when a pinger is present — if the
operation's kind is in the exclusion set then the call produces no span and
no log record (empty event list), while the outcome delivered to the caller
is the same as an otherwise-identical decorator without the exclusion: the
same error, and on success a wrapper with the same recorded context, query
text and delegated artifact (`txView`/`stmtView`/`resView`/`rowsView` strip
only the wrapper's embedded copy of the configuration, which necessarily
differs between the two configurations being compared). -/
theorem C3_theorem (c1 c2 : WrappedConn) (ctx : Ctx) (topts : TxOptions)
    (query : String) (args : List NamedValue) (pg : Ctx → Option Err)
    (hpar : c1.Parent = c2.Parent)
    (hpg : c1.Parent.Pinger = some pg)
    (hb1 : c1.opts.hasOpExcluded .OpSQLTxBegin = true)
    (_hb2 : c2.opts.hasOpExcluded .OpSQLTxBegin = false)
    (hp1 : c1.opts.hasOpExcluded .OpSQLPrepare = true)
    (_hp2 : c2.opts.hasOpExcluded .OpSQLPrepare = false)
    (he1 : c1.opts.hasOpExcluded .OpSQLConnExec = true)
    (_he2 : c2.opts.hasOpExcluded .OpSQLConnExec = false)
    (hq1 : c1.opts.hasOpExcluded .OpSQLConnQuery = true)
    (_hq2 : c2.opts.hasOpExcluded .OpSQLConnQuery = false)
    (hg1 : c1.opts.hasOpExcluded .OpSQLPing = true)
    (_hg2 : c2.opts.hasOpExcluded .OpSQLPing = false) :
    ((c1.BeginTx ctx topts).2 = []
      ∧ txView (c1.BeginTx ctx topts).1 = txView (c2.BeginTx ctx topts).1)
    ∧ ((c1.PrepareContext ctx query).2 = []
      ∧ stmtView (c1.PrepareContext ctx query).1 = stmtView (c2.PrepareContext ctx query).1)
    ∧ ((c1.ExecContext ctx query args).2 = []
      ∧ resView (c1.ExecContext ctx query args).1 = resView (c2.ExecContext ctx query args).1)
    ∧ ((c1.QueryContext ctx query args).2 = []
      ∧ rowsView (c1.QueryContext ctx query args).1 = rowsView (c2.QueryContext ctx query args).1)
    ∧ ((c1.Ping ctx).2 = [] ∧ (c1.Ping ctx).1 = (c2.Ping ctx).1) := by
  refine ⟨⟨BeginTx_snd_excluded c1 ctx topts hb1, ?_⟩,
    ⟨PrepareContext_snd_excluded c1 ctx query hp1, ?_⟩,
    ⟨ExecContext_snd_excluded c1 ctx query args he1, ?_⟩,
    ⟨QueryContext_snd_excluded c1 ctx query args hq1, ?_⟩,
    ⟨Ping_snd_excluded c1 ctx pg hpg hg1, ?_⟩⟩
  · rw [BeginTx_fst, BeginTx_fst]
    exact txView_beginTxBody c1 c2 hpar ctx topts
  · rw [PrepareContext_fst, PrepareContext_fst]
    exact stmtView_prepareContextBody c1 c2 hpar ctx query
  · rw [ExecContext_fst, ExecContext_fst]
    exact resView_execContextBody c1 c2 hpar ctx query args
  · rw [QueryContext_fst, QueryContext_fst, hpar]
    cases hc : (c2.Parent.QueryerContext.isNone && c2.Parent.Queryer.isNone)
    · simp only [hc, Bool.false_eq_true, if_false]
      exact rowsView_queryContextBody c1 c2 hpar ctx query args
    · simp [hc]
  · rw [Ping_fst c1 ctx pg hpg, Ping_fst c2 ctx pg (hpar ▸ hpg)]

/-- The decorator over the fully modern connection with every operation kind
excluded. -/
def cExcl : WrappedConn where
  opts := optsAll
  Parent := modernConn

/-- The decorator over the fully modern connection with nothing excluded. -/
def cIncl : WrappedConn where
  opts := optsNone
  Parent := modernConn

/-- **C3 witness**: the two decorators `cExcl`/`cIncl` share the modern
parent and differ exactly in the exclusion set; the excluded one produces no
events and the same outcomes. -/
theorem C3_witness :
    ((cExcl.BeginTx ctxLive { isolation := 0, readOnly := false }).2 = []
      ∧ txView (cExcl.BeginTx ctxLive { isolation := 0, readOnly := false }).1
          = txView (cIncl.BeginTx ctxLive { isolation := 0, readOnly := false }).1)
    ∧ ((cExcl.PrepareContext ctxLive "upd").2 = []
      ∧ stmtView (cExcl.PrepareContext ctxLive "upd").1
          = stmtView (cIncl.PrepareContext ctxLive "upd").1)
    ∧ ((cExcl.ExecContext ctxLive "upd" []).2 = []
      ∧ resView (cExcl.ExecContext ctxLive "upd" []).1
          = resView (cIncl.ExecContext ctxLive "upd" []).1)
    ∧ ((cExcl.QueryContext ctxLive "upd" []).2 = []
      ∧ rowsView (cExcl.QueryContext ctxLive "upd" []).1
          = rowsView (cIncl.QueryContext ctxLive "upd" []).1)
    ∧ ((cExcl.Ping ctxLive).2 = [] ∧ (cExcl.Ping ctxLive).1 = (cIncl.Ping ctxLive).1) :=
  C3_theorem cExcl cIncl ctxLive { isolation := 0, readOnly := false } "upd" []
    (fun ctx => if ctx.done then some (.driverErr 25) else none)
    rfl rfl (by decide) (by decide) (by decide) (by decide) (by decide)
    (by decide) (by decide) (by decide) (by decide) (by decide)

/-- **C7.** For every forwarded operation, the outcome delivered to the
caller is exactly the bare underlying call applied to the decorator's own
inputs (`beginTxCall` etc. contain no decoration): in particular any
delegated error reaches the caller as the identical error value — never
retried, suppressed or wrapped — and the query text and arguments the parent
receives are exactly those the decorator received, modulo only the
named-to-positional conversion on the fallback paths (which is part of
`execContextCall`/`queryContextCall`). `stmtParent`/`txParent`/`resParent`/
`rowsParent` project a success wrapper to the delegated artifact and leave
errors untouched. -/
theorem C7_theorem (c : WrappedConn) (ctx : Ctx) (topts : TxOptions)
    (query : String) (vargs : List Value) (args : List NamedValue) :
    stmtParent (c.Prepare query).1 = c.Parent.Prepare query
    ∧ c.Close = (c.Parent.Close, [])
    ∧ txParent c.Begin.1 = c.Parent.Begin
    ∧ txParent (c.BeginTx ctx topts).1 = beginTxCall c.Parent ctx topts
    ∧ stmtParent (c.PrepareContext ctx query).1 = prepareContextCall c.Parent ctx query
    ∧ resParent (c.Exec query vargs).1 = execCall c.Parent query vargs
    ∧ resParent (c.ExecContext ctx query args).1 = execContextCall c.Parent ctx query args
    ∧ (c.Ping ctx).1 = pingCall c.Parent ctx
    ∧ rowsParent (c.Query query vargs).1 = queryCall c.Parent query vargs
    ∧ rowsParent (c.QueryContext ctx query args).1 = queryContextCall c.Parent ctx query args := by
  refine ⟨?_, rfl, ?_, ?_, ?_, ?_, ?_, ?_, ?_, ?_⟩
  · unfold WrappedConn.Prepare stmtParent
    cases hx : c.Parent.Prepare query <;> simp [hx, Except.map]
  · unfold WrappedConn.Begin txParent
    cases hx : c.Parent.Begin <;> simp [hx, Except.map]
  · rw [BeginTx_fst]
    unfold beginTxBody beginTxCall txParent
    cases hx : c.Parent.ConnBeginTx with
    | some f => cases hy : f ctx topts <;> simp [hx, hy, Except.map]
    | none => cases hy : c.Parent.Begin <;> simp [hx, hy, Except.map]
  · rw [PrepareContext_fst]
    unfold prepareContextBody prepareContextCall WrappedConn.Prepare stmtParent
    cases hx : c.Parent.ConnPrepareContext with
    | some f => cases hy : f ctx query <;> simp [hx, hy, Except.map]
    | none => cases hy : c.Parent.Prepare query <;> simp [hx, hy, Except.map]
  · unfold WrappedConn.Exec execCall resParent
    cases hx : c.Parent.Execer with
    | some ex => cases hy : ex query vargs <;> simp [hx, hy, Except.map]
    | none => simp [hx, Except.map]
  · rw [ExecContext_fst]
    unfold execContextBody execContextCall WrappedConn.Exec execCall resParent
    cases hx : c.Parent.ExecerContext with
    | some f => cases hy : f ctx query args <;> simp [hx, hy, Except.map]
    | none =>
      cases hy : namedValueToValue args with
      | error e => simp [hx, hy, Except.map]
      | ok dargs =>
        cases hd : ctx.done
        · cases hz : c.Parent.Execer with
          | some ex => cases hw : ex query dargs <;> simp [hx, hy, hd, hz, hw, Except.map]
          | none => simp [hx, hy, hd, hz, Except.map]
        · simp [hx, hy, hd, Except.map]
  · unfold WrappedConn.Ping pingCall
    cases hx : c.Parent.Pinger with
    | some pinger => simp only [hx]; split <;> rfl
    | none => simp [hx]
  · unfold WrappedConn.Query queryCall rowsParent
    cases hx : c.Parent.Queryer with
    | some qr => cases hy : qr query vargs <;> simp [hx, hy, Except.map]
    | none => simp [hx, Except.map]
  · rw [QueryContext_fst]
    unfold queryContextBody queryContextCall WrappedConn.Query queryCall rowsParent
    cases hc : (c.Parent.QueryerContext.isNone && c.Parent.Queryer.isNone)
    · simp only [hc, Bool.false_eq_true, if_false]
      cases hx : c.Parent.QueryerContext with
      | some f => cases hy : f ctx query args <;> simp [hx, hy, Except.map]
      | none =>
        cases hy : namedValueToValue args with
        | error e => simp [hx, hy, Except.map]
        | ok dargs =>
          cases hd : ctx.done
          · cases hz : c.Parent.Queryer with
            | some qr => cases hw : qr query dargs <;> simp [hx, hy, hd, hz, hw, Except.map]
            | none => simp [hx, hy, hd, hz, Except.map]
          · simp [hx, hy, hd, Except.map]
    · simp [hc, rowsParent, Except.map]

/-- **C8.** When `BeginTx` falls back to the legacy `Begin` call (the parent
does not implement `driver.ConnBeginTx`), the caller-supplied
`driver.TxOptions` are silently discarded: the whole call — outcome and
events — is the same for any two option values, the legacy `Begin` (which by
its Go signature receives no options at all) is invoked, and no error about
the lost options is raised: the outcome is exactly the wrapped legacy
`Begin` outcome. -/
theorem C8_theorem (c : WrappedConn) (ctx : Ctx) (o1 o2 : TxOptions)
    (h : c.Parent.ConnBeginTx = none) :
    c.BeginTx ctx o1 = c.BeginTx ctx o2
    ∧ (c.BeginTx ctx o1).1
        = Except.map (fun tx => { opts := c.opts, ctx := some ctx, parent := tx })
            c.Parent.Begin := by
  constructor
  · simp [WrappedConn.BeginTx, beginTxBody, h]
  · rw [BeginTx_fst]
    unfold beginTxBody
    rw [h]
    cases hx : c.Parent.Begin <;> simp [hx, Except.map]

/-- **C8 witness**: the legacy-only connection, called with two different
transaction-option values (read-only and serializable vs not), gives the
identical outcome, a wrapper of the legacy transaction handle. -/
theorem C8_witness :
    WrappedConn.BeginTx { opts := optsNone, Parent := legacyConn } ctxLive
        { isolation := 2, readOnly := true }
      = WrappedConn.BeginTx { opts := optsNone, Parent := legacyConn } ctxLive
        { isolation := 0, readOnly := false }
    ∧ (WrappedConn.BeginTx { opts := optsNone, Parent := legacyConn } ctxLive
        { isolation := 2, readOnly := true }).1
      = Except.map (fun tx => { opts := optsNone, ctx := some ctxLive, parent := tx })
          legacyConn.Begin :=
  C8_theorem { opts := optsNone, Parent := legacyConn } ctxLive
    { isolation := 2, readOnly := true } { isolation := 0, readOnly := false } rfl

/-- A connection implementing only the base contract whose legacy `Begin`
fails with a distinctive driver error. -/
def legacyBeginErrConn : DriverConn :=
  { baseConn with Begin := .error (.driverErr 7) }

/-- **C1 counterexample.** The claim asserts the cancelled-context fast-path
for all four operations including `BeginTx`; but `BeginTx`'s fallback
(conn.go:69-74) performs no cancellation check: on a parent without
`driver.ConnBeginTx` and a context that is already cancelled, the decorator
still invokes the legacy `Begin` — its distinctive error `driverErr 7` comes
back to the caller — instead of returning the context's cancellation error,
and `driverErr 7` is not the context's error `canceled`. -/
theorem C1_counterexample :
    legacyBeginErrConn.ConnBeginTx = none
    ∧ ctxCancelled.done = true
    ∧ ctxCancelled.ctxErr = .canceled
    ∧ (WrappedConn.BeginTx { opts := optsNone, Parent := legacyBeginErrConn } ctxCancelled
        { isolation := 0, readOnly := false }).1 = .error (.driverErr 7)
    ∧ Err.driverErr 7 ≠ Err.canceled :=
  ⟨rfl, rfl, rfl, rfl, by decide⟩

/-- **C1 (amended).** The cancelled-context fast-path holds only for
`ExecContext` and `QueryContext` (conn.go:146-151, conn.go:225-229), and on
`ExecContext`/`QueryContext` only once the named arguments have converted
(conversion runs before the cancellation check): with the modern capability
absent, the context already done and the arguments converting, both return
exactly `ctx.Err()`; the legacy call is never invoked — witnessed by the
conclusion being independent of the parent's arbitrary `Execer`/`Queryer`
functions. `BeginTx` and `PrepareContext` fall back without any cancellation
check (see the counterexample). -/
theorem C1_theorem (c : WrappedConn) (ctx : Ctx) (query : String)
    (args : List NamedValue) (dargs : List Value)
    (qr : String → List Value → Except Err Rows)
    (hdone : ctx.done = true)
    (hargs : namedValueToValue args = .ok dargs)
    (hec : c.Parent.ExecerContext = none)
    (hqc : c.Parent.QueryerContext = none)
    (hqr : c.Parent.Queryer = some qr) :
    (c.ExecContext ctx query args).1 = .error ctx.ctxErr
    ∧ (c.QueryContext ctx query args).1 = .error ctx.ctxErr := by
  constructor
  · rw [ExecContext_fst]
    unfold execContextBody
    simp [hec, hargs, hdone]
  · rw [QueryContext_fst_of_queryer c ctx query args qr hqr]
    unfold queryContextBody
    simp [hqc, hargs, hdone]

/-- **C1 witness**: the legacy-only connection on an already-cancelled
context, with convertible (empty) arguments: both context-aware calls return
the context's cancellation error. -/
theorem C1_witness :
    (WrappedConn.ExecContext { opts := optsNone, Parent := legacyConn } ctxCancelled "sel3" []).1
      = .error ctxCancelled.ctxErr
    ∧ (WrappedConn.QueryContext { opts := optsNone, Parent := legacyConn } ctxCancelled "sel3" []).1
      = .error ctxCancelled.ctxErr :=
  C1_theorem { opts := optsNone, Parent := legacyConn } ctxCancelled "sel3" [] []
    (fun _ vs => .ok (vs.length + 60)) rfl rfl rfl rfl rfl

/-- **C2 counterexample.** The claim asserts that for connection-level exec
the capability check happens before any span creation; but `ExecContext`
(conn.go:114-129) creates and labels its span before the
`driver.ExecerContext`/`driver.Execer` checks: on a parent implementing
neither, with nothing excluded, the call does return `driver.ErrSkip`, yet
its event list contains a span-start for the exec operation kind —
contradicting "creates no span ... regardless of the exclusion-set
configuration". (Only `QueryContext` has the quick-skip path,
conn.go:189-194.) -/
theorem C2_counterexample :
    baseConn.ExecerContext = none
    ∧ baseConn.Execer = none
    ∧ (WrappedConn.ExecContext { opts := optsNone, Parent := baseConn } ctxLive "ins" []).1
        = .error .skip
    ∧ Event.spanStart .OpSQLConnExec
        ∈ (WrappedConn.ExecContext { opts := optsNone, Parent := baseConn } ctxLive "ins" []).2 :=
  ⟨rfl, rfl, rfl, by decide⟩

/-- **C2 (amended).** On a parent implementing neither the modern nor the
legacy capability: `QueryContext` returns the `driver.ErrSkip` sentinel with
no underlying work and no span at all, before the exclusion set is even
consulted; `ExecContext` also performs no underlying driver work and returns
`driver.ErrSkip` — but only when the named arguments convert and the context
is not already cancelled (those two checks run first on its fallback path) —
and it does create a span when the exec kind is not excluded, because its
capability check happens after span creation, not before. -/
theorem C2_theorem (c : WrappedConn) (ctx : Ctx) (query : String)
    (args : List NamedValue) (dargs : List Value)
    (hqc : c.Parent.QueryerContext = none)
    (hq : c.Parent.Queryer = none)
    (hec : c.Parent.ExecerContext = none)
    (he : c.Parent.Execer = none)
    (hargs : namedValueToValue args = .ok dargs)
    (hdone : ctx.done = false)
    (hexcl : c.opts.hasOpExcluded .OpSQLConnExec = false) :
    c.QueryContext ctx query args = (.error .skip, [])
    ∧ (c.ExecContext ctx query args).1 = .error .skip
    ∧ Event.spanStart .OpSQLConnExec ∈ (c.ExecContext ctx query args).2 := by
  refine ⟨?_, ?_, ?_⟩
  · unfold WrappedConn.QueryContext
    simp [hqc, hq]
  · rw [ExecContext_fst]
    unfold execContextBody WrappedConn.Exec
    simp [hec, hargs, hdone, he]
  · unfold WrappedConn.ExecContext
    simp [hexcl]

/-- **C2 witness**: the capability-less base connection, nothing excluded, a
live context and convertible (empty) arguments: `QueryContext` is the bare
sentinel with no events, `ExecContext` returns the sentinel but has started
a span. -/
theorem C2_witness :
    WrappedConn.QueryContext { opts := optsNone, Parent := baseConn } ctxLive "ins2" []
        = (.error .skip, [])
    ∧ (WrappedConn.ExecContext { opts := optsNone, Parent := baseConn } ctxLive "ins2" []).1
        = .error .skip
    ∧ Event.spanStart .OpSQLConnExec
        ∈ (WrappedConn.ExecContext { opts := optsNone, Parent := baseConn } ctxLive "ins2" []).2 :=
  C2_theorem { opts := optsNone, Parent := baseConn } ctxLive "ins2" [] []
    rfl rfl rfl rfl rfl rfl rfl

/-- **C6.** On a parent implementing only the legacy exec/query capability,
with a non-cancelled context: when the named arguments convert to `dargs`,
the context-aware call's outcome is exactly the legacy call on
`(query, dargs)` — the same error on failure, on success a wrapper around
the same result/rows (with no recorded context, as the legacy wrapper sets
none) — and when conversion fails, its error is returned as-is and the
legacy call is never invoked (the conclusion is independent of the arbitrary
`ex`/`qr`). -/
theorem C6_theorem (c : WrappedConn) (ctx : Ctx) (query : String)
    (args bad : List NamedValue) (dargs : List Value) (e : Err)
    (ex : String → List Value → Except Err Res)
    (qr : String → List Value → Except Err Rows)
    (hec : c.Parent.ExecerContext = none)
    (hex : c.Parent.Execer = some ex)
    (hqc : c.Parent.QueryerContext = none)
    (hqr : c.Parent.Queryer = some qr)
    (hdone : ctx.done = false)
    (hargs : namedValueToValue args = .ok dargs)
    (hbad : namedValueToValue bad = .error e) :
    (c.ExecContext ctx query args).1
        = Except.map (fun res => { opts := c.opts, ctx := none, parent := res }) (ex query dargs)
    ∧ (c.QueryContext ctx query args).1
        = Except.map (fun rows => { opts := c.opts, ctx := none, parent := rows }) (qr query dargs)
    ∧ (c.ExecContext ctx query bad).1 = .error e
    ∧ (c.QueryContext ctx query bad).1 = .error e := by
  refine ⟨?_, ?_, ?_, ?_⟩
  · rw [ExecContext_fst]
    unfold execContextBody WrappedConn.Exec
    cases hy : ex query dargs <;> simp [hec, hargs, hdone, hex, hy, Except.map]
  · rw [QueryContext_fst_of_queryer c ctx query args qr hqr]
    unfold queryContextBody WrappedConn.Query
    cases hy : qr query dargs <;> simp [hqc, hargs, hdone, hqr, hy, Except.map]
  · rw [ExecContext_fst]
    unfold execContextBody
    simp [hec, hbad]
  · rw [QueryContext_fst_of_queryer c ctx query bad qr hqr]
    unfold queryContextBody
    simp [hqc, hbad]

/-- **C6 witness**: the legacy-only connection on a live context; the
positional argument `9` converts and reaches the legacy call (lengths 1 give
handles 51/61); the named argument `"n"` fails conversion and the conversion
error comes back unchanged from both calls. -/
theorem C6_witness :
    (WrappedConn.ExecContext { opts := optsNone, Parent := legacyConn } ctxLive "upd2"
        [{ name := "", ordinal := 1, value := 9 }]).1
      = .ok { opts := optsNone, ctx := none, parent := 51 }
    ∧ (WrappedConn.QueryContext { opts := optsNone, Parent := legacyConn } ctxLive "upd2"
        [{ name := "", ordinal := 1, value := 9 }]).1
      = .ok { opts := optsNone, ctx := none, parent := 61 }
    ∧ (WrappedConn.ExecContext { opts := optsNone, Parent := legacyConn } ctxLive "upd2"
        [{ name := "n", ordinal := 1, value := 9 }]).1
      = .error (.convErr "driver does not support the use of Named Parameters")
    ∧ (WrappedConn.QueryContext { opts := optsNone, Parent := legacyConn } ctxLive "upd2"
        [{ name := "n", ordinal := 1, value := 9 }]).1
      = .error (.convErr "driver does not support the use of Named Parameters") := by
  have h := C6_theorem { opts := optsNone, Parent := legacyConn } ctxLive "upd2"
    [{ name := "", ordinal := 1, value := 9 }] [{ name := "n", ordinal := 1, value := 9 }]
    [9] (.convErr "driver does not support the use of Named Parameters")
    (fun _ vs => .ok (vs.length + 50)) (fun _ vs => .ok (vs.length + 60))
    rfl rfl rfl rfl rfl rfl rfl
  exact ⟨h.1.trans rfl, h.2.1.trans rfl, h.2.2.1, h.2.2.2⟩
